import Mathlib

/-!
Shallow embedding of `src/sidecar/app.py` (ClawEvolve Python sidecar).

Python floats are modelled as exact rationals (`ℚ`), Python dicts as
key-value lists, and a candidate's `policy_json` string by the outcome of
`json.loads` on it.  Fallible code (uncaught Python exceptions) is modelled
with `Except String`.
-/

/-- Embeds `clamp` (app.py lines 18-19): `max(min_value, min(max_value, value))`. -/
def clamp (value min_value max_value : ℚ) : ℚ :=
  max min_value (min max_value value)

/-- Embeds `mean` (app.py lines 22-25): `statistics.fmean` as exact
sum / length, returning `0.0` on the empty list. -/
def mean (values : List ℚ) : ℚ :=
  if values = [] then 0 else values.sum / values.length

/-- Embeds `normalized_cost` (app.py lines 28-29). -/
def normalized_cost (cost_usd : ℚ) : ℚ :=
  clamp (1 - cost_usd / (15/100)) 0 1

/-- Embeds `normalized_latency` (app.py lines 32-33). -/
def normalized_latency (latency_ms : ℚ) : ℚ :=
  clamp (1 - latency_ms / 20000) 0 1

/-- Embeds `metric_or_neutral` (app.py lines 36-41): a missing or
non-castable metric (`none`) falls back to the neutral `0.5`. -/
def metric_or_neutral (raw_value : Option ℚ) (normalizer : ℚ → ℚ) : ℚ :=
  match raw_value with
  | none => 1/2
  | some value => normalizer value

/-- Embeds `normalize_tool_preferences` (app.py lines 44-50); a
`Dict[str, float]` is a list of key-value pairs. -/
def normalize_tool_preferences (weights : List (String × ℚ)) : List (String × ℚ) :=
  let safe_weights := weights.map (fun kv => (kv.1, max 0 kv.2))
  let total := (safe_weights.map Prod.snd).sum
  if total ≤ 0 then
    let n : ℕ := max 1 safe_weights.length
    safe_weights.map (fun kv => (kv.1, 1 / (n : ℚ)))
  else
    safe_weights.map (fun kv => (kv.1, kv.2 / total))

/-- Python `int()` truncation toward zero, on an exact rational. -/
def py_int_trunc (q : ℚ) : ℤ :=
  if 0 ≤ q then ⌊q⌋ else ⌈q⌉

/-- The `safeguards` sub-dictionary of a Policy (app.py lines 73-76). -/
structure Safeguards where
  maxRiskScore : ℚ
  disallowedTools : List String
  deriving DecidableEq, Repr

/-- A Policy dictionary as built by `seed_policy_from_genome` and
`_parse_policy` (fixed key set). -/
structure Policy where
  systemPrompt : String
  responseStyle : String
  toolPreferences : List (String × ℚ)
  toolRetryBudget : ℤ
  deliberationBudget : ℤ
  memoryDepth : ℤ
  safeguards : Safeguards
  deriving DecidableEq, Repr

/-- The `safeguards` entry of a seed genome (`none` = key absent). -/
structure GenomeSafeguards where
  maxRiskScore : Option ℚ
  disallowedTools : Option (List String)
  deriving DecidableEq, Repr

/-- The caller's `request.seedGenome`, restricted to the fields
`seed_policy_from_genome` reads, typed by their expected shapes
(`none` = key absent). -/
structure SeedGenome where
  systemPrompt : Option String
  responseStyle : Option String
  toolPreferences : Option (List (String × ℚ))
  toolRetryBudget : Option ℚ
  deliberationBudget : Option ℚ
  memoryDepth : Option ℚ
  safeguards : Option GenomeSafeguards
  deriving DecidableEq, Repr

/-- Embeds `seed_policy_from_genome` (app.py lines 64-77): raw `int()` /
`float()` casts with defaults; no clamping is performed. -/
def seed_policy_from_genome (seed_genome : SeedGenome) : Policy :=
  let safeguards := seed_genome.safeguards.getD ⟨none, none⟩
  { systemPrompt := seed_genome.systemPrompt.getD ""
    responseStyle := seed_genome.responseStyle.getD "balanced"
    toolPreferences := normalize_tool_preferences (seed_genome.toolPreferences.getD [])
    toolRetryBudget := py_int_trunc (seed_genome.toolRetryBudget.getD 1)
    deliberationBudget := py_int_trunc (seed_genome.deliberationBudget.getD 2)
    memoryDepth := py_int_trunc (seed_genome.memoryDepth.getD 6)
    safeguards :=
      { maxRiskScore := safeguards.maxRiskScore.getD (11/20)
        disallowedTools := safeguards.disallowedTools.getD [] } }

/-- A parsed JSON value (`json.loads` output shape). -/
inductive JVal where
  | jnull : JVal
  | jbool : Bool → JVal
  | jnum : ℚ → JVal
  | jstr : String → JVal
  | jarr : List JVal → JVal
  | jobj : List (String × JVal) → JVal
  deriving Repr

/-- A candidate's `policy_json` string, represented by the outcome of
`json.loads` on it: the empty string, a non-empty string that fails to
parse (carrying the exception text), or a string parsing to a JSON value. -/
inductive Payload where
  | empty : Payload
  | malformed : String → Payload
  | parsed : JVal → Payload

/-- `dict.get(key)` on a parsed JSON object (keys of a `json.loads` object
are unique, so first-match lookup agrees with the Python dict). -/
def jlookup (key : String) : List (String × JVal) → Option JVal
  | [] => none
  | (k, v) :: rest => if k = key then some v else jlookup key rest

/-- Python type name of a parsed JSON value, for exception messages. -/
def jtype : JVal → String
  | .jnull => "NoneType"
  | .jbool _ => "bool"
  | .jnum _ => "number"
  | .jstr _ => "str"
  | .jarr _ => "list"
  | .jobj _ => "dict"

/-- Digits of a decimal literal to a natural number. -/
def digits_to_nat (cs : List Char) : ℕ :=
  cs.foldl (fun acc c => acc * 10 + (c.toNat - 48)) 0

/-- Models CPython `float(s)` on plain decimal string literals (optional
sign, digits, optional fractional part). Scientific notation, infinities
and NaN are not needed by any claim and are treated as non-castable. -/
def py_float_of_string (s : String) : Option ℚ :=
  let cs := s.trim.toList
  let signed : ℚ × List Char :=
    match cs with
    | '+' :: rest => (1, rest)
    | '-' :: rest => (-1, rest)
    | rest => (1, rest)
  let sign := signed.1
  let body := signed.2
  let int_part := body.takeWhile (fun c => c ≠ '.')
  let rest := body.dropWhile (fun c => c ≠ '.')
  if int_part.all Char.isDigit then
    match rest with
    | [] =>
      if int_part.isEmpty then none
      else some (sign * (digits_to_nat int_part : ℚ))
    | _ :: frac =>
      if frac.all Char.isDigit && !(int_part.isEmpty && frac.isEmpty) then
        some (sign * ((digits_to_nat int_part : ℚ) +
          (digits_to_nat frac : ℚ) / (10 : ℚ) ^ frac.length))
      else none
  else none

/-- Models Python `float(x)` on a parsed JSON value; `Except.error` models
the uncaught `TypeError` / `ValueError` the cast raises. -/
def py_float : JVal → Except String ℚ
  | .jnum q => .ok q
  | .jbool b => .ok (if b then 1 else 0)
  | .jstr s =>
    match py_float_of_string s with
    | some q => .ok q
    | none => .error ("ValueError: could not convert string to float: " ++ s)
  | .jnull => .error "TypeError: float() argument must be a string or a real number, not NoneType"
  | .jarr _ => .error "TypeError: float() argument must be a string or a real number, not list"
  | .jobj _ => .error "TypeError: float() argument must be a string or a real number, not dict"

/-- Python `str(x)` on a parsed JSON value. Only the string case is relied
upon by the code (`disallowedTools` entries); the rendering of compound
values is schematic. -/
def py_str : JVal → String
  | .jstr s => s
  | .jnull => "None"
  | .jbool b => if b then "True" else "False"
  | .jnum q => toString q
  | .jarr _ => "[...]"
  | .jobj _ => "\x7b...\x7d"

/-- The `float(v)` casts `normalize_tool_preferences` performs on a parsed
`toolPreferences` object (app.py line 45), item by item in order; the first
non-castable value raises. -/
def cast_tool_preferences : List (String × JVal) → Except String (List (String × ℚ))
  | [] => .ok []
  | (k, v) :: rest =>
    match py_float v with
    | .error e => .error e
    | .ok q =>
      match cast_tool_preferences rest with
      | .error e => .error e
      | .ok ws => .ok ((k, q) :: ws)

/-- Embeds the local `safe_int` of `_parse_policy` (app.py lines 134-138):
`int(clamp(float(value), min_v, max_v))`, with the prior value on a cast
failure (including a missing key, where `float(None)` raises). -/
def safe_int (value : Option JVal) (fallback : ℤ) (min_v max_v : ℤ) : ℤ :=
  match value with
  | none => fallback
  | some v =>
    match py_float v with
    | .error _ => fallback
    | .ok q => py_int_trunc (clamp q (min_v : ℚ) (max_v : ℚ))

/-- Embeds `OpenClawTelemetryAdapter._parse_policy` (app.py lines 114-162).
`Except.error` models an uncaught Python exception escaping the method.
The deep copy of the seed policy is the identity on immutable values; the
`float(v)` casts performed inside `normalize_tool_preferences` are applied
to the parsed values first (same per-item order, same raised errors). -/
def parse_policy (seed_policy : Policy) (candidate : Payload) :
    Except String (Policy × Option String) :=
  match candidate with
  | .empty => .ok (seed_policy, none)
  | .malformed exc => .ok (seed_policy, some ("invalid policy_json: " ++ exc))
  | .parsed (.jobj fields) =>
    let policy := seed_policy
    let policy :=
      match jlookup "systemPrompt" fields with
      | some (.jstr s) => { policy with systemPrompt := s }
      | _ => policy
    let policy :=
      match jlookup "responseStyle" fields with
      | some (.jstr s) =>
        if s = "concise" ∨ s = "balanced" ∨ s = "detailed" then
          { policy with responseStyle := s }
        else policy
      | _ => policy
    let step : Except String Policy :=
      match jlookup "toolPreferences" fields with
      | some (.jobj tool_preferences) =>
        match cast_tool_preferences tool_preferences with
        | .error e => .error e
        | .ok ws => .ok { policy with toolPreferences := normalize_tool_preferences ws }
      | _ => .ok policy
    match step with
    | .error e => .error e
    | .ok policy =>
      let policy := { policy with
        toolRetryBudget := safe_int (jlookup "toolRetryBudget" fields) policy.toolRetryBudget 0 8 }
      let policy := { policy with
        deliberationBudget :=
          safe_int (jlookup "deliberationBudget" fields) policy.deliberationBudget 1 12 }
      let policy := { policy with
        memoryDepth := safe_int (jlookup "memoryDepth" fields) policy.memoryDepth 1 64 }
      let policy :=
        match jlookup "safeguards" fields with
        | some (.jobj safeguards) =>
          let policy :=
            match jlookup "maxRiskScore" safeguards with
            | some v =>
              match py_float v with
              | .ok q => { policy with safeguards :=
                  { policy.safeguards with maxRiskScore := clamp q (1/20) (19/20) } }
              | .error _ => policy
            | none => policy
          match jlookup "disallowedTools" safeguards with
          | some (.jarr xs) => { policy with safeguards :=
              { policy.safeguards with disallowedTools := xs.map py_str } }
          | _ => policy
        | _ => policy
      .ok (policy, none)
  | .parsed other => .error ("AttributeError: " ++ jtype other ++ " object has no attribute get")

/-- Embeds `json.dumps(policy, separators=(",", ":"), sort_keys=True)`
(app.py line 375) at the level of the parsed value: the JSON object the
serialized policy parses back to, keys in sorted order. -/
def encode_policy (policy : Policy) : Payload :=
  .parsed (.jobj
    [ ("deliberationBudget", .jnum (policy.deliberationBudget : ℚ)),
      ("memoryDepth", .jnum (policy.memoryDepth : ℚ)),
      ("responseStyle", .jstr policy.responseStyle),
      ("safeguards", .jobj
        [ ("disallowedTools", .jarr (policy.safeguards.disallowedTools.map JVal.jstr)),
          ("maxRiskScore", .jnum policy.safeguards.maxRiskScore) ]),
      ("systemPrompt", .jstr policy.systemPrompt),
      ("toolPreferences", .jobj (policy.toolPreferences.map (fun kv => (kv.1, JVal.jnum kv.2)))),
      ("toolRetryBudget", .jnum (policy.toolRetryBudget : ℚ)) ])

/-- One entry of a trajectory's `toolCalls` list, typed by the shapes the
data model documents. -/
structure ToolCall where
  toolName : String
  success : Bool
  riskScore : ℚ
  deriving DecidableEq, Repr

/-- A recorded trajectory, restricted to the fields the evaluator reads and
typed by the shapes the data model documents (`none` = metric absent or not
castable). -/
structure Trajectory where
  id : Option String
  prompt : String
  toolCalls : List ToolCall
  success : Bool
  userFeedback : ℚ
  safetyIncidents : ℚ
  costUsd : Option ℚ
  latencyMs : Option ℚ
  deriving DecidableEq, Repr

/-- `d.get(key, fallback)` on a `Dict[str, float]`. -/
def dict_get_q (d : List (String × ℚ)) (key : String) (fallback : ℚ) : ℚ :=
  match d with
  | [] => fallback
  | (k, v) :: rest => if k = key then v else dict_get_q rest key fallback

/-- Embeds `OpenClawTelemetryAdapter._tool_fitness_for_trajectory`
(app.py lines 164-184). -/
def tool_fitness_for_trajectory (trajectory : Trajectory) (policy : Policy) : ℚ :=
  let calls := trajectory.toolCalls
  if calls = [] then 1/2
  else
    let max_risk := policy.safeguards.maxRiskScore
    let scores := calls.map (fun call =>
      let pref := dict_get_q policy.toolPreferences call.toolName (1/100)
      let success_boost : ℚ := if call.success then 1 else -(7/10)
      let call_risk := clamp call.riskScore 0 1
      let baseline_risk_penalty := -(1/2) * call_risk
      let risk_penalty : ℚ := if max_risk < call_risk then -(4/5) else 0
      pref * (1 + success_boost + baseline_risk_penalty + risk_penalty))
    let raw := mean scores
    clamp ((raw + 1) / 2) 0 1

/-- The adapter's `objective_weights` dictionary (fixed key set, built by
`objective_defaults`). -/
structure ObjectiveWeights where
  success : ℚ
  satisfaction : ℚ
  safety : ℚ
  toolReliability : ℚ
  efficiency : ℚ
  deriving DecidableEq, Repr

/-- The per-example `objectives` dictionary (fixed key set). -/
structure Objectives where
  successRate : ℚ
  satisfaction : ℚ
  safety : ℚ
  toolReliability : ℚ
  efficiency : ℚ
  deriving DecidableEq, Repr

/-- The per-example `output` dictionary. -/
structure EvalOutput where
  score : ℚ
  objectives : Objectives
  trajectoryId : Option String
  deriving DecidableEq, Repr

/-- `f"{q:.2f}"`: two-decimal rendering of an exact rational (Python's
round-half-to-even on the underlying float is rendered as round-half-up;
the difference can only show at an exact decimal half). -/
def format_2f (q : ℚ) : String :=
  let n : ℤ := ⌊q * 100 + 1/2⌋
  let sign := if n < 0 then "-" else ""
  let m := n.natAbs
  let frac := m % 100
  sign ++ toString (m / 100) ++ "." ++ (if frac < 10 then "0" else "") ++ toString frac

/-- The tuple `(total, objectives, output, feedback)` that
`_evaluate_example` returns. -/
structure ExampleEval where
  total : ℚ
  objectives : Objectives
  output : EvalOutput
  feedback : String
  deriving DecidableEq, Repr

/-- Embeds `OpenClawTelemetryAdapter._evaluate_example` (app.py lines
186-240); the adapter's `objective_weights` is passed explicitly. -/
def evaluate_example (objective_weights : ObjectiveWeights)
    (trajectory : Trajectory) (policy : Policy) : ExampleEval :=
  let success_rate : ℚ := if trajectory.success then 1 else 0
  let satisfaction := clamp ((trajectory.userFeedback + 1) / 2) 0 1
  let safety := clamp (1 - min 1 (trajectory.safetyIncidents / 3)) 0 1
  let tool_reliability := tool_fitness_for_trajectory trajectory policy
  let cost_score := metric_or_neutral trajectory.costUsd normalized_cost
  let latency_score := metric_or_neutral trajectory.latencyMs normalized_latency
  let efficiency := clamp ((cost_score + latency_score) / 2) 0 1
  let strategy_penalty := clamp ((policy.deliberationBudget : ℚ) / 10) 0 (3/10)
    + clamp ((policy.memoryDepth : ℚ) / 100) 0 (2/10)
  let style_bonus := (5/100) *
    (if policy.responseStyle = "balanced" then (1 : ℚ)
     else if policy.responseStyle = "concise" then 95/100 else 9/10)
  let total := clamp
    (objective_weights.success * success_rate
      + objective_weights.satisfaction * satisfaction
      + objective_weights.safety * safety
      + objective_weights.toolReliability * tool_reliability
      + objective_weights.efficiency * efficiency
      + style_bonus - strategy_penalty) 0 1
  let objectives : Objectives :=
    { successRate := success_rate, satisfaction := satisfaction, safety := safety,
      toolReliability := tool_reliability, efficiency := efficiency }
  let output : EvalOutput :=
    { score := total, objectives := objectives, trajectoryId := trajectory.id }
  let failure_hint :=
    if 1 ≤ success_rate ∧ 1 ≤ safety then "Preserve this behavior while improving efficiency."
    else "Improve safety checks and tool routing."
  let feedback := "success=" ++ format_2f success_rate ++ ", safety=" ++ format_2f safety
    ++ ", toolReliability=" ++ format_2f tool_reliability ++ ". " ++ failure_hint
  { total := total, objectives := objectives, output := output, feedback := feedback }

/-- One captured trace row of `evaluate` (app.py lines 268-276). -/
structure EvalTrace where
  data : Trajectory
  output : EvalOutput
  score : ℚ
  objective_scores : Objectives
  feedback : String
  deriving DecidableEq, Repr

/-- The `objective_scores` accumulator of `evaluate` (fixed key set). -/
structure ObjectiveScoreLists where
  successRate : List ℚ
  satisfaction : List ℚ
  safety : List ℚ
  toolReliability : List ℚ
  efficiency : List ℚ
  deriving DecidableEq, Repr

/-- The `EvaluationBatch` returned by `evaluate`. -/
structure EvaluationBatch where
  outputs : List EvalOutput
  scores : List ℚ
  trajectories : Option (List EvalTrace)
  objective_scores : ObjectiveScoreLists
  deriving DecidableEq, Repr

/-- The per-example loop body of `evaluate` (app.py lines 258-276): the
values appended for one example, after the optional parse-error penalty. -/
structure ExampleRow where
  output : EvalOutput
  score : ℚ
  objectives : Objectives
  feedback : String
  data : Trajectory
  deriving DecidableEq, Repr

/-- Embeds `OpenClawTelemetryAdapter.evaluate` (app.py lines 242-283): one
decode, then an independent order-preserving pass over the batch; a parse
error reduces every score by 0.08 (clamped) and annotates every feedback;
traces are materialized only when `capture_traces` is set. `Except.error`
propagates an exception raised by the decode. -/
def evaluate (seed_policy : Policy) (objective_weights : ObjectiveWeights)
    (batch : List Trajectory) (candidate : Payload) (capture_traces : Bool) :
    Except String EvaluationBatch := do
  let pr ← parse_policy seed_policy candidate
  let policy := pr.1
  let parse_error := pr.2
  let rows := batch.map (fun ex =>
    let r := evaluate_example objective_weights ex policy
    match parse_error with
    | some err =>
      { output := r.output, score := clamp (r.total - 8/100) 0 1, objectives := r.objectives,
        feedback := r.feedback ++ " Parse error fallback: " ++ err,
        data := ex : ExampleRow }
    | none =>
      { output := r.output, score := r.total, objectives := r.objectives,
        feedback := r.feedback, data := ex : ExampleRow })
  pure
    { outputs := rows.map (fun r => r.output)
      scores := rows.map (fun r => r.score)
      trajectories :=
        if capture_traces then
          some (rows.map (fun r =>
            { data := r.data, output := r.output, score := r.score,
              objective_scores := r.objectives, feedback := r.feedback }))
        else none
      objective_scores :=
        { successRate := rows.map (fun r => r.objectives.successRate)
          satisfaction := rows.map (fun r => r.objectives.satisfaction)
          safety := rows.map (fun r => r.objectives.safety)
          toolReliability := rows.map (fun r => r.objectives.toolReliability)
          efficiency := rows.map (fun r => r.objectives.efficiency) } }

/-- Embeds the train/validation split of `evolve` (app.py lines 358-373).
`int(len(trainset) * 0.2)` over exact arithmetic is floor division by 5. -/
def evolve_split {α : Type} (outer_holdout_applied : Bool) (trajectories : List α) :
    List α × List α :=
  if outer_holdout_applied = true ∨ trajectories.length < 25 then
    (trajectories, trajectories)
  else if 5 ≤ trajectories.length then
    let split := max 1 (trajectories.length / 5)
    let valset := trajectories.drop (trajectories.length - split)
    let trainset := trajectories.take (trajectories.length - split)
    if trainset.length < 1 then (trajectories, valset) else (trainset, valset)
  else (trajectories, trajectories)

/-- A concrete policy fixture for witnesses (the seed the defaults build). -/
def examplePolicy : Policy :=
  { systemPrompt := "", responseStyle := "balanced",
    toolPreferences := [("search", 1)], toolRetryBudget := 1,
    deliberationBudget := 2, memoryDepth := 6,
    safeguards := { maxRiskScore := 11/20, disallowedTools := [] } }

/-- A concrete objective-weight fixture for witnesses (the defaults). -/
def exampleWeights : ObjectiveWeights :=
  { success := 3/10, satisfaction := 1/5, safety := 1/4,
    toolReliability := 3/20, efficiency := 1/10 }

/-- A concrete trajectory fixture for witnesses. -/
def exampleTrajectory : Trajectory :=
  { id := some "t1", prompt := "p", toolCalls := [], success := true,
    userFeedback := 1, safetyIncidents := 0, costUsd := some (3/100),
    latencyMs := some 1200 }

section NormalizeLemmas

lemma clamp_le_right {x lo hi : ℚ} (h : lo ≤ hi) : clamp x lo hi ≤ hi := by
  unfold clamp
  exact max_le h (min_le_left _ _)

lemma le_clamp_left (x lo hi : ℚ) : lo ≤ clamp x lo hi :=
  le_max_left _ _

lemma clamp_eq_self {x lo hi : ℚ} (h1 : lo ≤ x) (h2 : x ≤ hi) : clamp x lo hi = x := by
  unfold clamp
  rw [min_eq_right h2, max_eq_right h1]

lemma list_sum_map_div (l : List ℚ) (c : ℚ) :
    (l.map (fun v => v / c)).sum = l.sum / c := by
  induction l with
  | nil => simp
  | cons a t ih => simp [ih, add_div]

lemma list_sum_map_const {α : Type} (l : List α) (c : ℚ) :
    (l.map (fun _ => c)).sum = l.length * c := by
  induction l with
  | nil => simp
  | cons a t ih =>
    simp only [List.map_cons, List.sum_cons, ih, List.length_cons]
    push_cast
    ring

/-- Zeta-reduced characterization of `normalize_tool_preferences` with the
inner maps fused, used by the proofs below. -/
lemma normalize_tool_preferences_eq (weights : List (String × ℚ)) :
    normalize_tool_preferences weights =
      if (weights.map (fun kv => max 0 kv.2)).sum ≤ 0 then
        weights.map (fun kv => (kv.1, 1 / ((max 1 weights.length : ℕ) : ℚ)))
      else
        weights.map (fun kv =>
          (kv.1, (max 0 kv.2) / (weights.map (fun kv => max 0 kv.2)).sum)) := by
  simp only [normalize_tool_preferences]
  rw [List.map_map, List.length_map, List.map_map, List.map_map]
  rfl

end NormalizeLemmas

/-- Claim C4 (amended): for every non-empty weight map the values of
`normalize_tool_preferences` sum to exactly 1, and when every supplied
weight is ≤ 0 the output maps each key to 1/n; on the empty map the output
is empty (its values sum to 0, which forces the non-emptiness hypothesis). -/
theorem C4_normalize_sums_to_one (weights : List (String × ℚ)) (hne : weights ≠ []) :
    ((normalize_tool_preferences weights).map Prod.snd).sum = 1 ∧
    ((∀ kv ∈ weights, kv.2 ≤ 0) →
      normalize_tool_preferences weights =
        weights.map (fun kv => (kv.1, 1 / (weights.length : ℚ)))) := by
  have hlen : 1 ≤ weights.length := by
    cases weights with
    | nil => exact absurd rfl hne
    | cons a t => simp
  have hlenq : ((weights.length : ℚ)) ≠ 0 := by
    have h0 : 0 < weights.length := hlen
    positivity
  have hn : max 1 weights.length = weights.length := Nat.max_eq_right hlen
  rw [normalize_tool_preferences_eq, hn]
  constructor
  · by_cases h : (weights.map (fun kv => max 0 kv.2)).sum ≤ 0
    · rw [if_pos h, List.map_map]
      rw [show (Prod.snd ∘ fun kv : String × ℚ => (kv.1, 1 / ((weights.length : ℕ) : ℚ)))
          = fun _ : String × ℚ => 1 / ((weights.length : ℕ) : ℚ) from rfl]
      rw [list_sum_map_const]
      field_simp
    · rw [if_neg h, List.map_map]
      have htot : (weights.map (fun kv => max 0 kv.2)).sum ≠ 0 := fun hc => h (le_of_eq hc)
      rw [show (Prod.snd ∘ fun kv : String × ℚ =>
          (kv.1, (max 0 kv.2) / (weights.map (fun kv => max 0 kv.2)).sum))
          = (fun v => v / (weights.map (fun kv => max 0 kv.2)).sum)
            ∘ (fun kv : String × ℚ => max 0 kv.2) from rfl]
      rw [← List.map_map, list_sum_map_div]
      exact div_self htot
  · intro hall
    have hzero : weights.map (fun kv => max 0 kv.2) = weights.map (fun _ => (0 : ℚ)) :=
      List.map_congr_left (fun kv hkv => max_eq_left (hall kv hkv))
    have hsum : (weights.map (fun kv => max 0 kv.2)).sum = 0 := by
      rw [hzero, list_sum_map_const]
      ring
    rw [if_pos (le_of_eq hsum)]

/-- Claim C4 counterexample: on the empty weight map (a legal
`Dict[str, float]`) the output is empty and its values sum to 0, not 1. -/
theorem C4_empty_map_counterexample :
    ¬ (((normalize_tool_preferences ([] : List (String × ℚ))).map Prod.snd).sum = 1) := by
  decide

/-- Witness for C4 at the concrete map `[(a,-1),(b,0)]`: the normalized
values sum to 1 and are uniform (each 1/2) since all inputs are ≤ 0. -/
theorem C4_normalize_witness :
    ((normalize_tool_preferences [("a", (-1 : ℚ)), ("b", 0)]).map Prod.snd).sum = 1 ∧
    normalize_tool_preferences [("a", (-1 : ℚ)), ("b", 0)] =
      [("a", (1 : ℚ)/2), ("b", (1 : ℚ)/2)] := by
  have h := C4_normalize_sums_to_one [("a", (-1 : ℚ)), ("b", 0)] (by decide)
  refine ⟨h.1, ?_⟩
  have h2 := h.2 (by decide)
  rw [h2]
  norm_num


lemma py_int_trunc_bounds {q : ℚ} {lo hi : ℤ} (hlo : (lo : ℚ) ≤ q) (hhi : q ≤ (hi : ℚ)) :
    lo ≤ py_int_trunc q ∧ py_int_trunc q ≤ hi := by
  unfold py_int_trunc
  by_cases h : 0 ≤ q
  · rw [if_pos h]
    refine ⟨Int.le_floor.2 hlo, ?_⟩
    calc ⌊q⌋ ≤ ⌊(hi : ℚ)⌋ := Int.floor_mono hhi
      _ = hi := Int.floor_intCast hi
  · rw [if_neg h]
    refine ⟨?_, Int.ceil_le.2 hhi⟩
    calc lo = ⌈(lo : ℚ)⌉ := (Int.ceil_intCast lo).symm
      _ ≤ ⌈q⌉ := Int.ceil_mono hlo

/-- Claim C1 (code bug): a payload that is valid JSON but not an object --
here the two-character string consisting of an opening and a closing square
bracket, which parses to the empty list -- makes `_parse_policy` raise
`AttributeError` at the first `parsed.get` call instead of returning, for
every seed policy: decoding does throw on such payloads. -/
theorem C1_parse_policy_raises_on_non_object (seed_policy : Policy) :
    parse_policy seed_policy (Payload.parsed (JVal.jarr [])) =
      Except.error "AttributeError: list object has no attribute get" := rfl

/-- Claim C10 (code bug): a payload parsing to a JSON object whose
`toolPreferences` carries a value `float()` cannot cast (here `null`) makes
`_parse_policy` raise `TypeError` from inside `normalize_tool_preferences`
instead of returning with a `None` parse error, for every seed policy. -/
theorem C10_parse_policy_raises_on_bad_tool_preference (seed_policy : Policy) :
    parse_policy seed_policy (Payload.parsed (JVal.jobj
        [("toolPreferences", JVal.jobj [("a", JVal.jnull)])])) =
      Except.error
        "TypeError: float() argument must be a string or a real number, not NoneType" := rfl

/-- Claim C3 counterexample: `seed_policy_from_genome` applies no clamping;
a genome carrying `toolRetryBudget = 100` yields a seed policy whose
`toolRetryBudget` is 100, outside the documented range [0, 8]. -/
theorem C3_counterexample :
    ¬ ((seed_policy_from_genome
        { systemPrompt := none, responseStyle := none, toolPreferences := none,
          toolRetryBudget := some 100, deliberationBudget := none,
          memoryDepth := none, safeguards := none }).toolRetryBudget ≤ 8) := by
  decide

/-- Claim C3 (amended): the seed Policy build applies the decode defaulting
but no clamping, so its numeric fields satisfy the documented bounds exactly
when the genome's supplied raw values (or the defaults, when the keys are
absent) already lie within those bounds. -/
theorem C3_seed_policy_bounds (seed_genome : SeedGenome)
    (h1 : ∀ q ∈ seed_genome.toolRetryBudget, 0 ≤ q ∧ q ≤ 8)
    (h2 : ∀ q ∈ seed_genome.deliberationBudget, 1 ≤ q ∧ q ≤ 12)
    (h3 : ∀ q ∈ seed_genome.memoryDepth, 1 ≤ q ∧ q ≤ 64)
    (h4 : ∀ sg ∈ seed_genome.safeguards, ∀ q ∈ sg.maxRiskScore,
      1/20 ≤ q ∧ q ≤ 19/20) :
    (0 ≤ (seed_policy_from_genome seed_genome).toolRetryBudget ∧
      (seed_policy_from_genome seed_genome).toolRetryBudget ≤ 8) ∧
    (1 ≤ (seed_policy_from_genome seed_genome).deliberationBudget ∧
      (seed_policy_from_genome seed_genome).deliberationBudget ≤ 12) ∧
    (1 ≤ (seed_policy_from_genome seed_genome).memoryDepth ∧
      (seed_policy_from_genome seed_genome).memoryDepth ≤ 64) ∧
    (1/20 ≤ (seed_policy_from_genome seed_genome).safeguards.maxRiskScore ∧
      (seed_policy_from_genome seed_genome).safeguards.maxRiskScore ≤ 19/20) := by
  simp only [seed_policy_from_genome]
  refine ⟨?_, ?_, ?_, ?_⟩
  · cases hb : seed_genome.toolRetryBudget with
    | none => simp [Option.getD]; decide
    | some q =>
      have := h1 q (by rw [hb]; rfl)
      simp only [hb, Option.getD_some]
      exact py_int_trunc_bounds (by exact_mod_cast this.1) (by exact_mod_cast this.2)
  · cases hb : seed_genome.deliberationBudget with
    | none => simp [Option.getD]; decide
    | some q =>
      have := h2 q (by rw [hb]; rfl)
      simp only [hb, Option.getD_some]
      exact py_int_trunc_bounds (by exact_mod_cast this.1) (by exact_mod_cast this.2)
  · cases hb : seed_genome.memoryDepth with
    | none => simp [Option.getD]; decide
    | some q =>
      have := h3 q (by rw [hb]; rfl)
      simp only [hb, Option.getD_some]
      exact py_int_trunc_bounds (by exact_mod_cast this.1) (by exact_mod_cast this.2)
  · cases hs : seed_genome.safeguards with
    | none => simp [Option.getD]; norm_num
    | some sg =>
      cases hm : sg.maxRiskScore with
      | none => simp [hs, Option.getD, hm]; norm_num
      | some q =>
        have := h4 sg (by rw [hs]; rfl) q (by rw [hm]; rfl)
        simp only [hs, hm, Option.getD_some]
        exact this

/-- Witness for C3 at the all-defaults genome: the defaults (1, 2, 6, 0.55)
lie inside every documented bound. -/
theorem C3_seed_policy_bounds_witness :
    (0 ≤ (seed_policy_from_genome
        { systemPrompt := none, responseStyle := none, toolPreferences := none,
          toolRetryBudget := none, deliberationBudget := none,
          memoryDepth := none, safeguards := none }).toolRetryBudget ∧
      (seed_policy_from_genome
        { systemPrompt := none, responseStyle := none, toolPreferences := none,
          toolRetryBudget := none, deliberationBudget := none,
          memoryDepth := none, safeguards := none }).toolRetryBudget ≤ 8) ∧
    (1 ≤ (seed_policy_from_genome
        { systemPrompt := none, responseStyle := none, toolPreferences := none,
          toolRetryBudget := none, deliberationBudget := none,
          memoryDepth := none, safeguards := none }).deliberationBudget ∧
      (seed_policy_from_genome
        { systemPrompt := none, responseStyle := none, toolPreferences := none,
          toolRetryBudget := none, deliberationBudget := none,
          memoryDepth := none, safeguards := none }).deliberationBudget ≤ 12) ∧
    (1 ≤ (seed_policy_from_genome
        { systemPrompt := none, responseStyle := none, toolPreferences := none,
          toolRetryBudget := none, deliberationBudget := none,
          memoryDepth := none, safeguards := none }).memoryDepth ∧
      (seed_policy_from_genome
        { systemPrompt := none, responseStyle := none, toolPreferences := none,
          toolRetryBudget := none, deliberationBudget := none,
          memoryDepth := none, safeguards := none }).memoryDepth ≤ 64) ∧
    (1/20 ≤ (seed_policy_from_genome
        { systemPrompt := none, responseStyle := none, toolPreferences := none,
          toolRetryBudget := none, deliberationBudget := none,
          memoryDepth := none, safeguards := none }).safeguards.maxRiskScore ∧
      (seed_policy_from_genome
        { systemPrompt := none, responseStyle := none, toolPreferences := none,
          toolRetryBudget := none, deliberationBudget := none,
          memoryDepth := none, safeguards := none }).safeguards.maxRiskScore ≤ 19/20) :=
  C3_seed_policy_bounds
    { systemPrompt := none, responseStyle := none, toolPreferences := none,
      toolRetryBudget := none, deliberationBudget := none,
      memoryDepth := none, safeguards := none }
    (by simp) (by simp) (by simp) (by simp)

/-- Claim C6: tool fitness is the neutral 0.5 when the trajectory has no
tool calls, and otherwise the clamped symmetric remap
clamp((mean(per-call scores) + 1) / 2, 0, 1) with
per-call score = pref * (1 + successBoost + baselineRiskPenalty +
hardRiskPenalty) as documented; the result always lies in [0, 1]. -/
theorem C6_tool_fitness_formula (trajectory : Trajectory) (policy : Policy) :
    tool_fitness_for_trajectory trajectory policy =
      (if trajectory.toolCalls = [] then 1/2
       else clamp ((mean (trajectory.toolCalls.map (fun call =>
          dict_get_q policy.toolPreferences call.toolName (1/100) *
            (1 + (if call.success then (1 : ℚ) else -(7/10))
              + -(1/2) * clamp call.riskScore 0 1
              + (if policy.safeguards.maxRiskScore < clamp call.riskScore 0 1
                 then -(4/5) else 0)))) + 1) / 2) 0 1) ∧
    0 ≤ tool_fitness_for_trajectory trajectory policy ∧
    tool_fitness_for_trajectory trajectory policy ≤ 1 := by
  refine ⟨rfl, ?_, ?_⟩
  · simp only [tool_fitness_for_trajectory]
    by_cases h : trajectory.toolCalls = []
    · rw [if_pos h]; norm_num
    · rw [if_neg h]; exact le_clamp_left _ _ _
  · simp only [tool_fitness_for_trajectory]
    by_cases h : trajectory.toolCalls = []
    · rw [if_pos h]; norm_num
    · rw [if_neg h]; exact clamp_le_right (by norm_num)

/-- Claim C8: the safety objective of `_evaluate_example` equals
clamp(1 - min(1, safetyIncidents / 3), 0, 1), is exactly 0 at three
incidents, and stays 0 for every incident count at least 3. -/
theorem C8_safety_saturation (objective_weights : ObjectiveWeights)
    (trajectory : Trajectory) (policy : Policy) :
    (evaluate_example objective_weights trajectory policy).objectives.safety =
      clamp (1 - min 1 (trajectory.safetyIncidents / 3)) 0 1 ∧
    (trajectory.safetyIncidents = 3 →
      (evaluate_example objective_weights trajectory policy).objectives.safety = 0) ∧
    (3 ≤ trajectory.safetyIncidents →
      (evaluate_example objective_weights trajectory policy).objectives.safety = 0) := by
  have base : (evaluate_example objective_weights trajectory policy).objectives.safety =
      clamp (1 - min 1 (trajectory.safetyIncidents / 3)) 0 1 := rfl
  refine ⟨base, ?_, ?_⟩
  · intro h
    rw [base, h]
    norm_num [clamp]
  · intro h
    have h1 : (1 : ℚ) ≤ trajectory.safetyIncidents / 3 := by
      rw [le_div_iff₀ (by norm_num : (0 : ℚ) < 3)]
      linarith
    rw [base, min_eq_left h1]
    norm_num [clamp]

/-- Witness for C8 at a concrete trajectory with five safety incidents:
both saturation hypotheses are dischargeable and the safety objective
evaluates to 0. -/
theorem C8_safety_saturation_witness :
    (evaluate_example exampleWeights
      { exampleTrajectory with safetyIncidents := 5 } examplePolicy).objectives.safety = 0 :=
  (C8_safety_saturation exampleWeights
    { exampleTrajectory with safetyIncidents := 5 } examplePolicy).2.2 (by norm_num)

lemma evaluate_of_parse (seed_policy policy : Policy)
    (objective_weights : ObjectiveWeights) (batch : List Trajectory)
    (candidate : Payload) (capture_traces : Bool) (pe : Option String)
    (h : parse_policy seed_policy candidate = Except.ok (policy, pe)) :
    evaluate seed_policy objective_weights batch candidate capture_traces =
      Except.ok
        { outputs := batch.map (fun ex => (evaluate_example objective_weights ex policy).output)
          scores := batch.map (fun ex =>
            match pe with
            | some _ => clamp ((evaluate_example objective_weights ex policy).total - 8/100) 0 1
            | none => (evaluate_example objective_weights ex policy).total)
          trajectories :=
            if capture_traces then
              some (batch.map (fun ex =>
                let r := evaluate_example objective_weights ex policy
                match pe with
                | some err =>
                  { data := ex, output := r.output, score := clamp (r.total - 8/100) 0 1,
                    objective_scores := r.objectives,
                    feedback := r.feedback ++ " Parse error fallback: " ++ err }
                | none =>
                  { data := ex, output := r.output, score := r.total,
                    objective_scores := r.objectives, feedback := r.feedback }))
            else none
          objective_scores :=
            { successRate := batch.map (fun ex =>
                (evaluate_example objective_weights ex policy).objectives.successRate)
              satisfaction := batch.map (fun ex =>
                (evaluate_example objective_weights ex policy).objectives.satisfaction)
              safety := batch.map (fun ex =>
                (evaluate_example objective_weights ex policy).objectives.safety)
              toolReliability := batch.map (fun ex =>
                (evaluate_example objective_weights ex policy).objectives.toolReliability)
              efficiency := batch.map (fun ex =>
                (evaluate_example objective_weights ex policy).objectives.efficiency) } } := by
  cases pe with
  | none =>
    simp only [evaluate, h, List.map_map]
    rfl
  | some err =>
    simp only [evaluate, h, List.map_map]
    rfl

/-- Claim C5: for a candidate whose non-empty payload fails to parse, every
example's score is clamp(s - 0.08, 0, 1) where s is the score the same
example receives under the seed policy, and every captured feedback string
is annotated with the parse error; a candidate decoding without parse error
receives no reduction. -/
theorem C5_parse_error_penalty (seed_policy : Policy)
    (objective_weights : ObjectiveWeights) (batch : List Trajectory) (exc : String) :
    (evaluate seed_policy objective_weights batch (Payload.malformed exc) true).map
        EvaluationBatch.scores =
      Except.ok (batch.map (fun ex =>
        clamp ((evaluate_example objective_weights ex seed_policy).total - 8/100) 0 1)) ∧
    (evaluate seed_policy objective_weights batch (Payload.malformed exc) true).map
        (fun b => b.trajectories.map (fun ts => ts.map EvalTrace.feedback)) =
      Except.ok (some (batch.map (fun ex =>
        (evaluate_example objective_weights ex seed_policy).feedback
          ++ " Parse error fallback: " ++ ("invalid policy_json: " ++ exc)))) ∧
    (∀ candidate policy, parse_policy seed_policy candidate = Except.ok (policy, none) →
      (evaluate seed_policy objective_weights batch candidate true).map
          EvaluationBatch.scores =
        Except.ok (batch.map (fun ex =>
          (evaluate_example objective_weights ex policy).total))) := by
  have h1 := evaluate_of_parse seed_policy seed_policy objective_weights batch
      (Payload.malformed exc) true (some ("invalid policy_json: " ++ exc)) rfl
  refine ⟨?_, ?_, ?_⟩
  · rw [h1]
    rfl
  · rw [h1]
    simp [Except.map, Option.map, List.map_map]
  · intro candidate policy h
    rw [evaluate_of_parse seed_policy policy objective_weights batch candidate true none h]
    rfl

/-- Witness for C5 at concrete fixtures: an unparseable payload gives the
penalized scores, and the empty payload (which decodes with no parse error)
gives the unpenalized ones. -/
theorem C5_parse_error_penalty_witness :
    (evaluate examplePolicy exampleWeights [exampleTrajectory] Payload.empty true).map
        EvaluationBatch.scores =
      Except.ok ([exampleTrajectory].map (fun ex =>
        (evaluate_example exampleWeights ex examplePolicy).total)) ∧
    (evaluate examplePolicy exampleWeights [exampleTrajectory]
        (Payload.malformed "x") true).map EvaluationBatch.scores =
      Except.ok ([exampleTrajectory].map (fun ex =>
        clamp ((evaluate_example exampleWeights ex examplePolicy).total - 8/100) 0 1)) := by
  have h := C5_parse_error_penalty examplePolicy exampleWeights [exampleTrajectory] "x"
  exact ⟨h.2.2 Payload.empty examplePolicy rfl, h.1⟩

/-- Claim C2 counterexample: with 26 trajectories and no external holdout
the code reserves the last max(1, int(26 * 0.2)) = 5 trajectories as
validation, not the last ceil(0.2 * 26) = 6 the claim states. -/
theorem C2_split_counterexample :
    (evolve_split false (List.range 26)).2 = (List.range 26).drop 21 ∧
    ¬ ((evolve_split false (List.range 26)).2 = (List.range 26).drop 20) := by
  constructor <;> decide

/-- Claim C2 (amended): with an external holdout declared or fewer than 25
trajectories both sets are the full list; otherwise the validation set is
the last max(1, floor(0.2 * n)) = n / 5 trajectories and the training set
the remaining prefix (the floor makes the empty-training fallback
unreachable there, since n - n / 5 >= 20). -/
theorem C2_split (outer_holdout_applied : Bool) {α : Type} (trajectories : List α) :
    ((outer_holdout_applied = true ∨ trajectories.length < 25) →
      evolve_split outer_holdout_applied trajectories = (trajectories, trajectories)) ∧
    (outer_holdout_applied = false → 25 ≤ trajectories.length →
      evolve_split outer_holdout_applied trajectories =
        (trajectories.take (trajectories.length - trajectories.length / 5),
         trajectories.drop (trajectories.length - trajectories.length / 5))) := by
  constructor
  · intro h
    simp only [evolve_split]
    rw [if_pos h]
  · intro hb hn
    have hcond : ¬ (outer_holdout_applied = true ∨ trajectories.length < 25) := by
      push_neg
      exact ⟨by simp [hb], by omega⟩
    have h5 : 5 ≤ trajectories.length := by omega
    have hdiv5 : 5 ≤ trajectories.length / 5 := by
      rw [Nat.le_div_iff_mul_le (by norm_num)]
      omega
    have hsplit : max 1 (trajectories.length / 5) = trajectories.length / 5 := by
      omega
    have hlt : trajectories.length / 5 < trajectories.length :=
      Nat.div_lt_self (by omega) (by norm_num)
    simp only [evolve_split]
    rw [if_neg hcond, if_pos h5, hsplit]
    have hpos : ¬ ((trajectories.take
        (trajectories.length - trajectories.length / 5)).length < 1) := by
      rw [List.length_take]
      omega
    rw [if_neg hpos]

/-- Witness for C2 at 30 trajectories with no external holdout: validation
is the last 6 and training the first 24, the spec's own worked example. -/
theorem C2_split_witness :
    evolve_split false (List.range 30) =
      ((List.range 30).take 24, (List.range 30).drop 24) := by
  have h := (C2_split false (List.range 30)).2 rfl (by simp)
  simpa using h

lemma py_int_trunc_intCast (b : ℤ) : py_int_trunc (b : ℚ) = b := by
  unfold py_int_trunc
  by_cases h : (0 : ℚ) ≤ (b : ℚ)
  · rw [if_pos h, Int.floor_intCast]
  · rw [if_neg h, Int.ceil_intCast]

lemma safe_int_jnum {b lo hi : ℤ} (fallback : ℤ) (h1 : lo ≤ b) (h2 : b ≤ hi) :
    safe_int (some (JVal.jnum (b : ℚ))) fallback lo hi = b := by
  show py_int_trunc (clamp (b : ℚ) (lo : ℚ) (hi : ℚ)) = b
  rw [clamp_eq_self (by exact_mod_cast h1) (by exact_mod_cast h2), py_int_trunc_intCast]

lemma cast_tool_preferences_jnum (l : List (String × ℚ)) :
    cast_tool_preferences (l.map (fun kv => (kv.1, JVal.jnum kv.2))) = Except.ok l := by
  induction l with
  | nil => rfl
  | cons a t ih =>
    simp only [List.map_cons, cast_tool_preferences, py_float, ih]

lemma normalize_tool_preferences_id (l : List (String × ℚ))
    (h0 : ∀ kv ∈ l, 0 ≤ kv.2) (h1 : (l.map Prod.snd).sum = 1) :
    normalize_tool_preferences l = l := by
  rw [normalize_tool_preferences_eq]
  have hmax : l.map (fun kv => max 0 kv.2) = l.map (fun kv => kv.2) :=
    List.map_congr_left (fun kv hkv => max_eq_right (h0 kv hkv))
  have hsum : (l.map (fun kv => max 0 kv.2)).sum = 1 := by
    rw [hmax]
    exact h1
  rw [if_neg (by rw [hsum]; norm_num)]
  have hid : ∀ kv ∈ l,
      (kv.1, max 0 kv.2 / (l.map (fun kv => max 0 kv.2)).sum) = kv := by
    intro kv hkv
    rw [hsum, max_eq_right (h0 kv hkv), div_one]
  calc l.map (fun kv => (kv.1, max 0 kv.2 / (l.map (fun kv => max 0 kv.2)).sum))
      = l.map id := List.map_congr_left hid
    _ = l := List.map_id l

lemma py_str_map_jstr (l : List String) : (l.map JVal.jstr).map py_str = l := by
  induction l with
  | nil => rfl
  | cons a t ih =>
    simp only [List.map_cons, py_str, ih]

/-- Claim C7: decoding the candidate produced by encoding a policy that
already satisfies every documented invariant (enum membership, integer
bounds, maxRiskScore bounds, non-negative tool preferences summing to 1)
returns that policy exactly, with no parse error, from any seed policy. -/
theorem C7_encode_decode_roundtrip (seed_policy policy : Policy)
    (hstyle : policy.responseStyle = "concise" ∨ policy.responseStyle = "balanced" ∨
      policy.responseStyle = "detailed")
    (hretry : 0 ≤ policy.toolRetryBudget ∧ policy.toolRetryBudget ≤ 8)
    (hdelib : 1 ≤ policy.deliberationBudget ∧ policy.deliberationBudget ≤ 12)
    (hmem : 1 ≤ policy.memoryDepth ∧ policy.memoryDepth ≤ 64)
    (hrisk : 1/20 ≤ policy.safeguards.maxRiskScore ∧
      policy.safeguards.maxRiskScore ≤ 19/20)
    (htp0 : ∀ kv ∈ policy.toolPreferences, 0 ≤ kv.2)
    (htp1 : (policy.toolPreferences.map Prod.snd).sum = 1) :
    parse_policy seed_policy (encode_policy policy) = Except.ok (policy, none) := by
  rcases hstyle with h | h | h <;>
    (simp [parse_policy, encode_policy, jlookup, h, py_float,
       cast_tool_preferences_jnum,
       normalize_tool_preferences_id policy.toolPreferences htp0 htp1,
       safe_int_jnum _ hretry.1 hretry.2, safe_int_jnum _ hdelib.1 hdelib.2,
       safe_int_jnum _ hmem.1 hmem.2]
     rw [show ((20 : ℚ))⁻¹ = 1/20 from by norm_num,
       clamp_eq_self hrisk.1 hrisk.2, ← List.map_map, py_str_map_jstr, ← h])

/-- Witness for C7: a concrete policy satisfying every invariant decodes
from its own encoding, unchanged, against a different concrete seed. -/
theorem C7_encode_decode_roundtrip_witness :
    parse_policy
      { systemPrompt := "seed", responseStyle := "detailed", toolPreferences := [],
        toolRetryBudget := 0, deliberationBudget := 1, memoryDepth := 1,
        safeguards := { maxRiskScore := 1/2, disallowedTools := ["x"] } }
      (encode_policy
        { systemPrompt := "hello", responseStyle := "concise",
          toolPreferences := [("search", 1/4), ("code", 3/4)], toolRetryBudget := 3,
          deliberationBudget := 4, memoryDepth := 16,
          safeguards := { maxRiskScore := 7/10, disallowedTools := ["rm"] } }) =
      Except.ok
        ({ systemPrompt := "hello", responseStyle := "concise",
           toolPreferences := [("search", 1/4), ("code", 3/4)], toolRetryBudget := 3,
           deliberationBudget := 4, memoryDepth := 16,
           safeguards := { maxRiskScore := 7/10, disallowedTools := ["rm"] } }, none) :=
  C7_encode_decode_roundtrip _ _ (Or.inl rfl) (by decide) (by decide) (by decide)
    (by norm_num)
    (by
      intro kv hkv
      simp only [List.mem_cons, List.not_mem_nil, or_false] at hkv
      rcases hkv with h | h <;> subst h <;> norm_num)
    (by norm_num)
